import Mathlib

/-!
Verification of the authenticated session / request-correlation layer of
`space-data-api` (src/lib/space-data-service.ts), shallowly embedded in Lean.

Modelling conventions:
* TypeScript optional / possibly-`undefined` fields become `Option`; JavaScript
  truthiness of an optional string (`undefined`, `null` and `""` are falsy)
  is `strTruthy`.
* `Date.now()` becomes an explicit `now : Int` argument (milliseconds).  The
  two `Date.now()` reads inside one `tryLogin` call are modelled as the same
  instant.
* Exceptions become `Except Failure` / an `Option Failure` component of the
  result; the non-null assertion `resp.data!` followed by a property access on
  a missing payload is the untyped `Failure.runtimeTypeError`.
* The HTTP collaborator (`tokenPost`, `convertPost`, ...) is an oracle
  argument: the response the network would deliver for the built request.
* `client.interceptors.request.use` appends a request hook to the client's
  interceptor list; the embedding tracks the number of installed hooks in
  `AuthState.interceptors`.
* Numeric coordinate components are irrelevant to every property proved here
  and are modelled over `Int`.
-/

namespace SpaceDataService

/-- One entry of an `HTTPValidationError.detail` list (only its `msg` field is
read by the client). -/
structure ValidationDetail where
  msg : String
deriving DecidableEq, Repr

/-- The generated client's `HTTPValidationError`: an optional list of
field-level validation details. -/
structure HTTPValidationError where
  detail : Option (List ValidationDetail)
deriving DecidableEq, Repr

/-- Tagged-union coordinate representation (`coord_type` discriminant in the
wire format). -/
inductive CoordRep
  | cartesian (x y z : Int) (units : String)
  | spherical (lat lon alt : Int) (units : String)
deriving DecidableEq, Repr

/-- The `data` payload of a server response, viewed through the fields the
client reads: the echoed correlation `ident`, an application `error` string,
and the operation results (`coordinates` for conversions, `position` for
`positionPost`).  Every field may be absent. -/
structure Payload where
  ident : Option String
  error : Option String
  coordinates : Option CoordRep
  position : Option CoordRep
deriving DecidableEq, Repr

/-- The envelope produced by every generated-client call (`ServerResponse` in
the source): an optional typed payload and an optional structured validation
error. -/
structure ServerResponse where
  data : Option Payload
  error : Option HTTPValidationError
deriving DecidableEq, Repr

/-- The failure classes thrown by the client.  The first three are the typed
`throw new Error(...)` classes of `validateResponse`; `runtimeTypeError` is
the untyped TypeError raised by a property access on an absent payload
(`resp.data!` dereference). -/
inductive Failure
  | validation (msg : String)
  | application (msg : String)
  | outOfOrder (msg : String)
  | runtimeTypeError
deriving DecidableEq, Repr

/-- Whether a failure is the typed Validation class. -/
def Failure.isValidation : Failure → Bool
  | .validation _ => true
  | _ => false

/-- Whether a failure is the typed Application class. -/
def Failure.isApplication : Failure → Bool
  | .application _ => true
  | _ => false

/-- Whether a failure is the typed OutOfOrder class. -/
def Failure.isOutOfOrder : Failure → Bool
  | .outOfOrder _ => true
  | _ => false

/-- JavaScript truthiness of an optional string: `undefined` and `""` are
falsy, every other string is truthy. -/
def strTruthy : Option String → Bool
  | none => false
  | some s => s != ""

/-- String interpolation `${x}` of a possibly-undefined string: an absent
value prints as `"undefined"`. -/
def showIdent : Option String → String
  | none => "undefined"
  | some s => s

/-- The guard `resp.error && resp.error.detail && resp.error.detail.length > 0`
of `validateResponse` (space-data-service.ts line 91). -/
def hasValidationErrors (resp : ServerResponse) : Bool :=
  match resp.error with
  | none => false
  | some e =>
    match e.detail with
    | none => false
    | some ds => decide (0 < ds.length)

/-- The validation-detail list of a response (`resp.error.detail`, empty when
absent); only read under `hasValidationErrors`. -/
def errDetails (resp : ServerResponse) : List ValidationDetail :=
  match resp.error with
  | none => []
  | some e => e.detail.getD []

/-- The message accumulation loop of lines 92–95:
`msg += detail.msg + "\n"` over the detail list, starting from `""`. -/
def joinDetailMsgs (ds : List ValidationDetail) : String :=
  ds.foldl (fun acc d => acc ++ d.msg ++ "\n") ""

/-- `SpaceData.validateResponse` (lines 90–103).  Checks, in order: non-empty
field-level validation list, then the payload's application `error` string,
then (when a truthy `ident` was supplied) the loose inequality
`data.ident != ident`.  The payload dereference `resp.data!` on an absent
payload is the untyped `runtimeTypeError`. -/
def validateResponse (resp : ServerResponse) (ident : Option String) :
    Except Failure Unit :=
  if hasValidationErrors resp then
    Except.error (Failure.validation
      ("Validation error: " ++ joinDetailMsgs (errDetails resp)))
  else
    match resp.data with
    | none => Except.error Failure.runtimeTypeError
    | some d =>
      if strTruthy d.error then
        Except.error (Failure.application (d.error.getD ""))
      else if strTruthy ident && (d.ident != ident) then
        Except.error (Failure.outOfOrder
          ("Out-of-order messaging (expected " ++ ident.getD "" ++
            " got " ++ showIdent d.ident))
      else Except.ok ()

/-- The mutable session state of a `SpaceData` instance: the cached opaque
token, its client-computed expiry instant (ms), and the number of request
interceptors installed on the shared HTTP client. -/
structure AuthState where
  cachedToken : Option Payload
  expiration : Int
  interceptors : Nat
deriving DecidableEq, Repr

/-- The refresh guard of `tryLogin` (lines 106–107):
`this.cachedToken === null || this.expiration <= Date.now() - 60 * 1000`.
Exactly when it holds does `tryLogin` perform the `tokenPost` exchange. -/
def loginNeeded (s : AuthState) (now : Int) : Bool :=
  s.cachedToken.isNone || decide (s.expiration ≤ now - 60 * 1000)

/-- `SpaceData.tryLogin` (lines 105–122).  `tokenResp` is the oracle response
of the `tokenPost` exchange (consulted only when `loginNeeded`).  On a thrown
validation failure the method aborts before mutating any field and before
installing the interceptor; otherwise the cache is refreshed (when needed)
and `client.interceptors.request.use` appends one more request hook. -/
def tryLogin (s : AuthState) (now : Int) (tokenResp : ServerResponse) :
    AuthState × Option Failure :=
  if loginNeeded s now then
    match validateResponse tokenResp none with
    | Except.error f => (s, some f)
    | Except.ok _ =>
      match tokenResp.data with
      | none => (s, some Failure.runtimeTypeError)
      | some tok =>
        (AuthState.mk (some tok) (now + 20 * 60 * 1000) (s.interceptors + 1),
          none)
  else (AuthState.mk s.cachedToken s.expiration (s.interceptors + 1), none)

/-- Outcome of the `checkGet()` liveness probe: either the promise resolves or
it rejects with a transport error. -/
inductive ProbeOutcome
  | ok
  | transportError (e : String)
deriving DecidableEq, Repr

/-- A `SpaceData` instance as seen by `check`: its base URL and session
state. -/
structure SpaceDataRef where
  baseUrl : String
  auth : AuthState
deriving DecidableEq, Repr

/-- `SpaceData.check` (lines 77–88): awaits the liveness probe inside
`try`/`catch`; any transport failure yields `null`, otherwise the instance
itself is returned.  Logging has no control-flow effect. -/
def check (self : SpaceDataRef) (probe : ProbeOutcome) : Option SpaceDataRef :=
  match probe with
  | ProbeOutcome.transportError _ => none
  | ProbeOutcome.ok => some self

/-- Request envelope of `convertPost` (line 128):
`{ident, coords, original, new, dt}`. -/
structure ConvertRequest where
  ident : String
  coords : CoordRep
  original : String
  new : String
  dt : String
deriving DecidableEq, Repr

/-- Request envelope of `terrestrial2CelestialPost` / `celestial2TerrestrialPost`
(lines 139, 151): `{ident, coords, dt}`. -/
structure TransformRequest where
  ident : String
  coords : CoordRep
  dt : String
deriving DecidableEq, Repr

/-- Request envelope of `positionPost` (line 160): `{ident, body, dt}`. -/
structure PositionRequest where
  ident : String
  body : String
  dt : String
deriving DecidableEq, Repr

/-- `SpaceData.convertCoords` (lines 124–132).  `ident` is the value the
`uuid4()` correlator produced for this call and `server` is the oracle for
`convertPost`.  Returns the threaded session state and either a failure or
the (possibly absent) `coordinates` field of the consumed payload. -/
def convertCoords (s : AuthState) (now : Int) (tokenResp : ServerResponse)
    (dt : String) (coords : CoordRep) (origFrame newFrame : String)
    (ident : String) (server : ConvertRequest → ServerResponse) :
    AuthState × Except Failure (Option CoordRep) :=
  match tryLogin s now tokenResp with
  | (s1, some f) => (s1, Except.error f)
  | (s1, none) =>
    match validateResponse
        (server (ConvertRequest.mk ident coords origFrame newFrame dt))
        (some ident) with
    | Except.error f => (s1, Except.error f)
    | Except.ok _ =>
      match (server (ConvertRequest.mk ident coords origFrame newFrame dt)).data with
      | none => (s1, Except.error Failure.runtimeTypeError)
      | some d => (s1, Except.ok d.coordinates)

/-- `SpaceData.fixedToJ2000` (lines 134–144): builds a spherical coordinate
record from `lat`/`lon`/`alt`/`units` and posts it to
`terrestrial2CelestialPost`. -/
def fixedToJ2000 (s : AuthState) (now : Int) (tokenResp : ServerResponse)
    (dt : String) (lat lon alt : Int) (units : String)
    (ident : String) (server : TransformRequest → ServerResponse) :
    AuthState × Except Failure (Option CoordRep) :=
  match tryLogin s now tokenResp with
  | (s1, some f) => (s1, Except.error f)
  | (s1, none) =>
    match validateResponse
        (server (TransformRequest.mk ident (CoordRep.spherical lat lon alt units) dt))
        (some ident) with
    | Except.error f => (s1, Except.error f)
    | Except.ok _ =>
      match (server (TransformRequest.mk ident
          (CoordRep.spherical lat lon alt units) dt)).data with
      | none => (s1, Except.error Failure.runtimeTypeError)
      | some d => (s1, Except.ok d.coordinates)

/-- `SpaceData.J2000ToFixed` (lines 146–155): builds a cartesian coordinate
record from `x`/`y`/`z`/`units` and posts it to
`celestial2TerrestrialPost`. -/
def J2000ToFixed (s : AuthState) (now : Int) (tokenResp : ServerResponse)
    (dt : String) (x y z : Int) (units : String)
    (ident : String) (server : TransformRequest → ServerResponse) :
    AuthState × Except Failure (Option CoordRep) :=
  match tryLogin s now tokenResp with
  | (s1, some f) => (s1, Except.error f)
  | (s1, none) =>
    match validateResponse
        (server (TransformRequest.mk ident (CoordRep.cartesian x y z units) dt))
        (some ident) with
    | Except.error f => (s1, Except.error f)
    | Except.ok _ =>
      match (server (TransformRequest.mk ident
          (CoordRep.cartesian x y z units) dt)).data with
      | none => (s1, Except.error Failure.runtimeTypeError)
      | some d => (s1, Except.ok d.coordinates)

/-- `SpaceData.currentPosition` (lines 157–164): posts `{ident, body, dt}` to
`positionPost` and returns the payload's `position` field. -/
def currentPosition (s : AuthState) (now : Int) (tokenResp : ServerResponse)
    (dt : String) (objName : String)
    (ident : String) (server : PositionRequest → ServerResponse) :
    AuthState × Except Failure (Option CoordRep) :=
  match tryLogin s now tokenResp with
  | (s1, some f) => (s1, Except.error f)
  | (s1, none) =>
    match validateResponse (server (PositionRequest.mk ident objName dt))
        (some ident) with
    | Except.error f => (s1, Except.error f)
    | Except.ok _ =>
      match (server (PositionRequest.mk ident objName dt)).data with
      | none => (s1, Except.error Failure.runtimeTypeError)
      | some d => (s1, Except.ok d.position)

/-- A concrete opaque token payload used in concrete evaluations. -/
def tok0 : Payload := Payload.mk (some "tok") none none none

/-- A token-endpoint response carrying an opaque token and no errors. -/
def tokRespOk : ServerResponse := ServerResponse.mk (some tok0) none

/-- If `validateResponse` passes with a truthy expected identifier, the
payload is present and echoes exactly that identifier. -/
lemma validateResponse_ok_ident (resp : ServerResponse) (s : String)
    (hs : s ≠ "") (h : validateResponse resp (some s) = Except.ok ()) :
    ∃ d, resp.data = some d ∧ d.ident = some s := by
  unfold validateResponse at h
  split at h
  · simp at h
  · split at h
    · simp at h
    · rename_i d hdata
      refine ⟨d, hdata, ?_⟩
      split at h
      · simp at h
      · split at h
        · simp at h
        · rename_i hcond
          have hst : strTruthy (some s) = true := by
            simp [strTruthy, hs]
          simp only [hst, Bool.true_and, bne_iff_ne, ne_eq,
            Decidable.not_not] at hcond
          exact hcond

/-- A first sanity check: a well-formed round trip succeeds. -/
example :
    validateResponse
      (ServerResponse.mk (some (Payload.mk (some "a") none none none)) none)
      (some "a") = Except.ok () := rfl

example :
    validateResponse (ServerResponse.mk none none) (some "a") =
      Except.error Failure.runtimeTypeError := rfl

/-- Claim C1 (code_bug): the spec demands a login exchange whenever
`now ≥ expiresAt - 60s`.  At the concrete state below the cached credential
expires exactly now (`expiresAt = now = 1200000`), so the claim requires a
login; but the source guard compares `expiration <= Date.now() - 60*1000`
(line 106 builds `tooClose = Date.now() - 60 * 1000`), so the guard is false
and `tryLogin` returns without a token exchange and without touching the
cache, whatever the token endpoint would have answered. -/
theorem C1_no_login_inside_safety_margin :
    (1200000 : Int) ≥ 1200000 - 60 * 1000 ∧
    loginNeeded (AuthState.mk (some tok0) 1200000 0) 1200000 = false ∧
    ∀ resp, tryLogin (AuthState.mk (some tok0) 1200000 0) 1200000 resp =
      (AuthState.mk (some tok0) 1200000 1, none) := by
  refine ⟨by decide, by decide, fun resp => ?_⟩
  rfl

/-- Claim C2 (code_bug): `client.interceptors.request.use` (line 118) sits
outside the refresh conditional, so every `tryLogin` call appends one more
request interceptor.  Two conversion calls that both find the cached
credential valid leave two installed interceptors, violating the claimed
at-most-one bound — and the second call, despite finding the cache valid,
installed an additional interceptor. -/
theorem C2_interceptor_accumulates :
    loginNeeded (AuthState.mk (some tok0) 100000000 0) 0 = false ∧
    (tryLogin (AuthState.mk (some tok0) 100000000 0) 0 tokRespOk).1.interceptors
      = 1 ∧
    (tryLogin (tryLogin (AuthState.mk (some tok0) 100000000 0) 0 tokRespOk).1 0
        tokRespOk).1.interceptors = 2 ∧
    ¬ (tryLogin (tryLogin (AuthState.mk (some tok0) 100000000 0) 0 tokRespOk).1 0
        tokRespOk).1.interceptors ≤ 1 := by
  exact ⟨by decide, rfl, rfl, by decide⟩

/-- Claim C7 (confirmed): while the cached credential expires more than 60
seconds in the future, the refresh guard is false, so the token endpoint is
not consulted (`tokenPost` sits under the guard) and the call leaves
`cachedToken` and `expiration` unchanged, only appending the interceptor. -/
theorem C7_valid_cache_skips_login (s : AuthState) (now : Int)
    (resp : ServerResponse) (tok : Payload)
    (htok : s.cachedToken = some tok) (hexp : now + 60 * 1000 < s.expiration) :
    loginNeeded s now = false ∧
    tryLogin s now resp =
      (AuthState.mk s.cachedToken s.expiration (s.interceptors + 1), none) ∧
    (tryLogin s now resp).1.cachedToken = s.cachedToken ∧
    (tryLogin s now resp).1.expiration = s.expiration ∧
    (tryLogin s now resp).2 = none := by
  have hln : loginNeeded s now = false := by
    unfold loginNeeded
    rw [htok]
    simp only [Option.isNone_some, Bool.false_or, decide_eq_false_iff_not]
    omega
  refine ⟨hln, ?_, ?_, ?_, ?_⟩ <;> simp [tryLogin, hln]

/-- Witness for C7 at a concrete state: token cached, expiry 1000 s in the
future, current time 0. -/
theorem C7_valid_cache_skips_login_witness :
    (AuthState.mk (some tok0) 1000000 0).cachedToken = some tok0 ∧
    (0 : Int) + 60 * 1000 < 1000000 ∧
    loginNeeded (AuthState.mk (some tok0) 1000000 0) 0 = false := by
  refine ⟨rfl, by decide, ?_⟩
  exact (C7_valid_cache_skips_login (AuthState.mk (some tok0) 1000000 0) 0
    tokRespOk tok0 rfl (by decide)).1

/-- Claim C8 (confirmed): `check` is total — a rejected liveness probe yields
the `null` sentinel (`none`), a resolved probe yields the instance itself;
no outcome raises. -/
theorem C8_check_never_raises (self : SpaceDataRef) (probe : ProbeOutcome) :
    ((∃ e, probe = ProbeOutcome.transportError e) → check self probe = none) ∧
    (probe = ProbeOutcome.ok → check self probe = some self) := by
  cases probe <;> simp [check]

/-- Witness for C8: a concrete transport failure makes `check` return the
unavailable sentinel. -/
theorem C8_check_never_raises_witness :
    (∃ e, ProbeOutcome.transportError "down" = ProbeOutcome.transportError e) ∧
    check (SpaceDataRef.mk "http://h:1" (AuthState.mk none 0 0))
      (ProbeOutcome.transportError "down") = none :=
  ⟨⟨"down", rfl⟩,
    (C8_check_never_raises (SpaceDataRef.mk "http://h:1" (AuthState.mk none 0 0))
      (ProbeOutcome.transportError "down")).1 ⟨"down", rfl⟩⟩

/-- The accumulation loop of lines 92–95 produces exactly the detail messages
newline-joined (each message terminated by a newline). -/
lemma joinDetailMsgs_eq_join (ds : List ValidationDetail) :
    joinDetailMsgs ds = String.join (ds.map (fun d => d.msg ++ "\n")) := by
  unfold joinDetailMsgs String.join
  rw [List.foldl_map]
  simp only [← String.append_assoc]

/-- Claim C5 (confirmed): a response with a non-empty validation-error list
always throws the Validation failure whose message is `"Validation error: "`
followed by every detail message newline-joined (one per line), whatever the
payload and the expected identifier are. -/
theorem C5_validation_msgs_joined (resp : ServerResponse)
    (e : HTTPValidationError) (ds : List ValidationDetail)
    (iopt : Option String)
    (he : resp.error = some e) (hd : e.detail = some ds) (hne : ds ≠ []) :
    validateResponse resp iopt =
      Except.error (Failure.validation
        ("Validation error: " ++
          String.join (ds.map (fun d => d.msg ++ "\n")))) := by
  have hval : hasValidationErrors resp = true := by
    simp [hasValidationErrors, he, hd, List.length_pos, hne]
  have hdet : errDetails resp = ds := by
    simp [errDetails, he, hd]
  simp [validateResponse, hval, hdet, joinDetailMsgs_eq_join]

/-- Witness for C5 at a two-message validation error. -/
theorem C5_validation_msgs_joined_witness :
    (ServerResponse.mk (some tok0)
        (some (HTTPValidationError.mk
          (some [ValidationDetail.mk "m1", ValidationDetail.mk "m2"])))).error =
      some (HTTPValidationError.mk
        (some [ValidationDetail.mk "m1", ValidationDetail.mk "m2"])) ∧
    [ValidationDetail.mk "m1", ValidationDetail.mk "m2"] ≠ [] ∧
    validateResponse
      (ServerResponse.mk (some tok0)
        (some (HTTPValidationError.mk
          (some [ValidationDetail.mk "m1", ValidationDetail.mk "m2"]))))
      (some "a") =
      Except.error (Failure.validation
        ("Validation error: " ++
          String.join ([ValidationDetail.mk "m1",
            ValidationDetail.mk "m2"].map (fun d => d.msg ++ "\n")))) :=
  ⟨rfl, by decide,
    C5_validation_msgs_joined
      (ServerResponse.mk (some tok0)
        (some (HTTPValidationError.mk
          (some [ValidationDetail.mk "m1", ValidationDetail.mk "m2"]))))
      (HTTPValidationError.mk
        (some [ValidationDetail.mk "m1", ValidationDetail.mk "m2"]))
      [ValidationDetail.mk "m1", ValidationDetail.mk "m2"]
      (some "a") rfl rfl (by decide)⟩

/-- A response carrying a non-empty validation-error list or an application
error string makes `validateResponse` (as called by `tryLogin`, with no
expected identifier) throw. -/
lemma validateResponse_fails_of_error (resp : ServerResponse)
    (h : hasValidationErrors resp = true ∨
      ∃ d, resp.data = some d ∧ strTruthy d.error = true) :
    ∃ f, validateResponse resp none = Except.error f := by
  rcases h with hv | ⟨d, hd, herr⟩
  · refine ⟨Failure.validation
      ("Validation error: " ++ joinDetailMsgs (errDetails resp)), ?_⟩
    simp [validateResponse, hv]
  · by_cases hv : hasValidationErrors resp = true
    · refine ⟨Failure.validation
        ("Validation error: " ++ joinDetailMsgs (errDetails resp)), ?_⟩
      simp [validateResponse, hv]
    · rw [Bool.not_eq_true] at hv
      refine ⟨Failure.application (d.error.getD ""), ?_⟩
      simp [validateResponse, hv, hd, herr]

/-- Claim C6 (confirmed): when the token-endpoint response carries a
validation-error list or an application error, `validateResponse` throws at
line 112, before the assignments at lines 113 and 116, so `cachedToken` and
`expiration` keep their previous values (and no interceptor is installed);
whenever the exchange actually ran (`loginNeeded`), the failure propagates. -/
theorem C6_login_failure_leaves_cache (s : AuthState) (now : Int)
    (resp : ServerResponse)
    (hfail : hasValidationErrors resp = true ∨
      ∃ d, resp.data = some d ∧ strTruthy d.error = true) :
    (tryLogin s now resp).1.cachedToken = s.cachedToken ∧
    (tryLogin s now resp).1.expiration = s.expiration ∧
    (loginNeeded s now = true → ∃ f, (tryLogin s now resp).2 = some f) := by
  obtain ⟨f, hf⟩ := validateResponse_fails_of_error resp hfail
  by_cases hln : loginNeeded s now = true
  · refine ⟨?_, ?_, fun _ => ⟨f, ?_⟩⟩ <;> simp [tryLogin, hln, hf]
  · rw [Bool.not_eq_true] at hln
    refine ⟨?_, ?_, fun hc => by rw [hln] at hc; cases hc⟩ <;>
      simp [tryLogin, hln]

/-- A token response rejected by the server with one validation message. -/
def respValErr : ServerResponse :=
  ServerResponse.mk none
    (some (HTTPValidationError.mk (some [ValidationDetail.mk "bad input"])))

/-- Witness for C6: an empty cache, a failing exchange — the cache fields are
unchanged and the failure propagates. -/
theorem C6_login_failure_leaves_cache_witness :
    (hasValidationErrors respValErr = true ∨
      ∃ d, respValErr.data = some d ∧ strTruthy d.error = true) ∧
    ((tryLogin (AuthState.mk none 0 0) 0 respValErr).1.cachedToken =
        (AuthState.mk none 0 0).cachedToken ∧
      (tryLogin (AuthState.mk none 0 0) 0 respValErr).1.expiration =
        (AuthState.mk none 0 0).expiration ∧
      (loginNeeded (AuthState.mk none 0 0) 0 = true →
        ∃ f, (tryLogin (AuthState.mk none 0 0) 0 respValErr).2 = some f)) :=
  ⟨Or.inl (by decide),
    C6_login_failure_leaves_cache (AuthState.mk none 0 0) 0 respValErr
      (Or.inl (by decide))⟩

/-- Claim C9 (confirmed): with an absent-or-empty validation-error list and no
`data` payload, line 98's non-null assertion followed by the `data.error`
access at line 99 is the untyped runtime TypeError — not one of the three
typed failure classes. -/
theorem C9_missing_payload_runtime_error (resp : ServerResponse)
    (iopt : Option String)
    (hnoval : hasValidationErrors resp = false) (hnodata : resp.data = none) :
    validateResponse resp iopt = Except.error Failure.runtimeTypeError ∧
    Failure.runtimeTypeError.isValidation = false ∧
    Failure.runtimeTypeError.isApplication = false ∧
    Failure.runtimeTypeError.isOutOfOrder = false := by
  refine ⟨?_, rfl, rfl, rfl⟩
  simp [validateResponse, hnoval, hnodata]

/-- Witness for C9: the empty envelope. -/
theorem C9_missing_payload_runtime_error_witness :
    hasValidationErrors (ServerResponse.mk none none) = false ∧
    (ServerResponse.mk none none).data = none ∧
    validateResponse (ServerResponse.mk none none) none =
      Except.error Failure.runtimeTypeError :=
  ⟨by decide, rfl,
    (C9_missing_payload_runtime_error (ServerResponse.mk none none) none
      (by decide) rfl).1⟩

/-- Claim C10 counterexample: the claim, read over every supplied expected
identifier, fails at the empty string.  The guard
`ident && data.ident != ident` (line 101) treats the falsy `""` as "no
identifier expected", so a payload lacking `ident` is accepted (`.ok`),
where the claim demands an OutOfOrder failure. -/
theorem C10_counterexample :
    validateResponse
      (ServerResponse.mk (some (Payload.mk none none none none)) none)
      (some "") = Except.ok () := rfl

/-- Claim C10 amended (theorem): for a *non-empty* supplied expected
identifier, a payload with no validation errors, no application error and no
`ident` field is rejected with the OutOfOrder failure (the absent value
prints as `undefined` in the message). -/
theorem C10_missing_ident_rejected (resp : ServerResponse) (d : Payload)
    (s : String) (hnoval : hasValidationErrors resp = false)
    (hdata : resp.data = some d) (hnoerr : strTruthy d.error = false)
    (hs : s ≠ "") (hid : d.ident = none) :
    validateResponse resp (some s) =
      Except.error (Failure.outOfOrder
        ("Out-of-order messaging (expected " ++ s ++ " got " ++ "undefined")) := by
  have hst : strTruthy (some s) = true := by
    simp [strTruthy, hs]
  simp [validateResponse, hnoval, hdata, hnoerr, hst, hid, showIdent]

/-- Witness for the amended C10 at the identifier `"a"`. -/
theorem C10_missing_ident_rejected_witness :
    ("a" : String) ≠ "" ∧
    validateResponse
      (ServerResponse.mk (some (Payload.mk none none none none)) none)
      (some "a") =
      Except.error (Failure.outOfOrder
        ("Out-of-order messaging (expected " ++ "a" ++ " got " ++ "undefined")) :=
  ⟨by decide,
    C10_missing_ident_rejected
      (ServerResponse.mk (some (Payload.mk none none none none)) none)
      (Payload.mk none none none none) "a"
      (by decide) rfl (by decide) (by decide) rfl⟩

/-- Claim C3 counterexample: the claim quantifies over *every* response
envelope and promises that, absent validation and application errors, a
supplied differing identifier yields OutOfOrder and otherwise the call
returns normally.  The envelope with no `data` payload and the supplied
identifier `"x"` falsifies it: `validateResponse` throws the untyped runtime
TypeError (line 98's `resp.data!` dereference), which is not an OutOfOrder
failure, and the call does not return normally. -/
theorem C3_counterexample :
    validateResponse (ServerResponse.mk none none) (some "x") =
      Except.error Failure.runtimeTypeError ∧
    Failure.runtimeTypeError.isOutOfOrder = false ∧
    Failure.runtimeTypeError.isValidation = false ∧
    Failure.runtimeTypeError.isApplication = false :=
  ⟨rfl, rfl, rfl, rfl⟩

/-- Claim C3 amended (theorem): for envelopes that do carry a `data` payload,
and when any supplied expected identifier is non-empty (the falsy `""` is
treated by line 101 as "no identifier expected"), the failure classes are
checked in the claimed fixed precedence: a non-empty validation-error list
throws Validation regardless of every other field; otherwise a truthy
application error string throws Application; otherwise a supplied differing
identifier throws OutOfOrder; otherwise the call returns normally. -/
theorem C3_precedence (resp : ServerResponse) (d : Payload)
    (iopt : Option String) (hdata : resp.data = some d)
    (hident : ∀ s, iopt = some s → s ≠ "") :
    (hasValidationErrors resp = true →
      validateResponse resp iopt =
        Except.error (Failure.validation
          ("Validation error: " ++ joinDetailMsgs (errDetails resp)))) ∧
    (hasValidationErrors resp = false → strTruthy d.error = true →
      validateResponse resp iopt =
        Except.error (Failure.application (d.error.getD ""))) ∧
    (∀ s, hasValidationErrors resp = false → strTruthy d.error = false →
      iopt = some s → d.ident ≠ some s →
      validateResponse resp iopt =
        Except.error (Failure.outOfOrder
          ("Out-of-order messaging (expected " ++ s ++ " got " ++
            showIdent d.ident))) ∧
    (hasValidationErrors resp = false → strTruthy d.error = false →
      (∀ s, iopt = some s → d.ident = some s) →
      validateResponse resp iopt = Except.ok ()) := by
  refine ⟨?_, ?_, ?_, ?_⟩
  · intro hv
    simp [validateResponse, hv]
  · intro hv herr
    simp [validateResponse, hv, hdata, herr]
  · intro s hv herr hio hne
    subst hio
    have hs : s ≠ "" := hident s rfl
    have hst : strTruthy (some s) = true := by simp [strTruthy, hs]
    have hbne : (d.ident != some s) = true := by simp [bne_iff_ne, hne]
    simp [validateResponse, hv, hdata, herr, hst, hbne]
  · intro hv herr hmatch
    cases hio : iopt with
    | none =>
      have hstn : strTruthy (none : Option String) = false := rfl
      simp [validateResponse, hv, hdata, herr, hstn]
    | some s =>
      have hdi : d.ident = some s := hmatch s hio
      simp [validateResponse, hv, hdata, herr, hdi]

/-- Witness for the amended C3: a well-formed envelope echoing the expected
identifier `"a"` passes validation. -/
theorem C3_precedence_witness :
    (ServerResponse.mk (some (Payload.mk (some "a") none none none)) none).data
      = some (Payload.mk (some "a") none none none) ∧
    validateResponse
      (ServerResponse.mk (some (Payload.mk (some "a") none none none)) none)
      (some "a") = Except.ok () := by
  refine ⟨rfl, ?_⟩
  have h := C3_precedence
    (ServerResponse.mk (some (Payload.mk (some "a") none none none)) none)
    (Payload.mk (some "a") none none none) (some "a") rfl
    (by intro s hs; injection hs with h2; subst h2; decide)
  exact h.2.2.2 (by decide) (by decide)
    (by intro s hs; injection hs with h2; subst h2; rfl)

/-- Claim C4 (confirmed): every conversion operation that returns without
raising consumed a payload whose `ident` equals the correlator value `ident`
embedded in the request envelope it sent (`uuid4()` output is never the empty
string, hence the `ident ≠ ""` hypothesis).  The oracle arguments are the
respective remote endpoints, applied to the literal request envelopes the
operations build. -/
theorem C4_ident_round_trip (s : AuthState) (now : Int)
    (tokenResp : ServerResponse) (dt : String) (coords : CoordRep)
    (origFrame newFrame : String) (lat lon alt x y z : Int)
    (units objName : String) (ident : String)
    (serverC : ConvertRequest → ServerResponse)
    (serverT serverT2 : TransformRequest → ServerResponse)
    (serverP : PositionRequest → ServerResponse)
    (hident : ident ≠ "") :
    (∀ v, (convertCoords s now tokenResp dt coords origFrame newFrame ident
        serverC).2 = Except.ok v →
      ∃ d, (serverC (ConvertRequest.mk ident coords origFrame newFrame
          dt)).data = some d ∧ d.ident = some ident) ∧
    (∀ v, (fixedToJ2000 s now tokenResp dt lat lon alt units ident
        serverT).2 = Except.ok v →
      ∃ d, (serverT (TransformRequest.mk ident
          (CoordRep.spherical lat lon alt units) dt)).data = some d ∧
        d.ident = some ident) ∧
    (∀ v, (J2000ToFixed s now tokenResp dt x y z units ident
        serverT2).2 = Except.ok v →
      ∃ d, (serverT2 (TransformRequest.mk ident
          (CoordRep.cartesian x y z units) dt)).data = some d ∧
        d.ident = some ident) ∧
    (∀ v, (currentPosition s now tokenResp dt objName ident
        serverP).2 = Except.ok v →
      ∃ d, (serverP (PositionRequest.mk ident objName dt)).data = some d ∧
        d.ident = some ident) := by
  refine ⟨fun v hv => ?_, fun v hv => ?_, fun v hv => ?_, fun v hv => ?_⟩
  · unfold convertCoords at hv
    split at hv
    · simp at hv
    · split at hv
      · simp at hv
      · rename_i u heq
        cases u
        exact validateResponse_ok_ident _ ident hident heq
  · unfold fixedToJ2000 at hv
    split at hv
    · simp at hv
    · split at hv
      · simp at hv
      · rename_i u heq
        cases u
        exact validateResponse_ok_ident _ ident hident heq
  · unfold J2000ToFixed at hv
    split at hv
    · simp at hv
    · split at hv
      · simp at hv
      · rename_i u heq
        cases u
        exact validateResponse_ok_ident _ ident hident heq
  · unfold currentPosition at hv
    split at hv
    · simp at hv
    · split at hv
      · simp at hv
      · rename_i u heq
        cases u
        exact validateResponse_ok_ident _ ident hident heq

/-- A concrete well-behaved convert endpoint: echoes the request's `ident`
and returns the request's coordinates. -/
def serverC0 : ConvertRequest → ServerResponse := fun req =>
  ServerResponse.mk
    (some (Payload.mk (some req.ident) none (some req.coords) none)) none

/-- An endpoint refusing every request (empty envelope). -/
def serverT0 : TransformRequest → ServerResponse := fun _ =>
  ServerResponse.mk none none

/-- A position endpoint refusing every request (empty envelope). -/
def serverP0 : PositionRequest → ServerResponse := fun _ =>
  ServerResponse.mk none none

/-- Witness for C4 at the correlator value `"a"` and the echoing endpoint. -/
theorem C4_ident_round_trip_witness :
    ("a" : String) ≠ "" ∧
    (∀ v, (convertCoords (AuthState.mk (some tok0) 10000000 0) 0 tokRespOk
        "2024-01-01" (CoordRep.cartesian 4 5 6 "km") "ITRF93" "J2000" "a"
        serverC0).2 = Except.ok v →
      ∃ d, (serverC0 (ConvertRequest.mk "a" (CoordRep.cartesian 4 5 6 "km")
          "ITRF93" "J2000" "2024-01-01")).data = some d ∧
        d.ident = some "a") :=
  ⟨by decide,
    (C4_ident_round_trip (AuthState.mk (some tok0) 10000000 0) 0 tokRespOk
      "2024-01-01" (CoordRep.cartesian 4 5 6 "km") "ITRF93" "J2000"
      0 0 0 0 0 0 "km" "earth" "a" serverC0 serverT0 serverT0 serverP0
      (by decide)).1⟩

/-- Non-vacuity: with a valid cached credential and the echoing endpoint, a
conversion call actually succeeds and returns the coordinates. -/
example :
    (convertCoords (AuthState.mk (some tok0) 10000000 0) 0 tokRespOk
      "2024-01-01" (CoordRep.cartesian 4 5 6 "km") "ITRF93" "J2000" "a"
      serverC0).2 = Except.ok (some (CoordRep.cartesian 4 5 6 "km")) := rfl

end SpaceDataService
